import Mathlib

/-
Verification of parse_dpcd.py: a decoder for DisplayPort Configuration Data
(DPCD) register dumps.  The Python source is embedded shallowly below:
pure Python string operations are modelled on List Char, Python arbitrary
precision integers as Int (bitwise operations on negative integers use the
two complement convention, as Python does), and the ValueError raised by
failed parsing as an explicit error value.
-/

set_option maxRecDepth 100000

namespace ParseDpcd

/-- Characters removed by the Python str.strip() method (ASCII range). -/
def isPyWhite (c : Char) : Bool :=
  c == ' ' || c == '\t' || c == '\n' || c == '\r' || c == '\x0b' || c == '\x0c'

/-- Model of Python str.strip(): drop leading and trailing whitespace. -/
def pyStrip (cs : List Char) : List Char :=
  ((cs.dropWhile isPyWhite).reverse.dropWhile isPyWhite).reverse

/-- Model of Python str.split(sep) for a one-character separator: split at
every occurrence of sep, keeping empty segments, so that splitting the
empty string yields one empty segment. -/
def pySplit (sep : Char) : List Char → List (List Char)
  | [] => [[]]
  | c :: cs =>
    if c = sep then [] :: pySplit sep cs
    else
      match pySplit sep cs with
      | t :: ts => (c :: t) :: ts
      | [] => [[c]]

/-- Hexadecimal digit recogniser, as accepted by Python int(s, 16). -/
def isHexDig (c : Char) : Bool :=
  (c ≥ '0' && c ≤ '9') || (c ≥ 'a' && c ≤ 'f') || (c ≥ 'A' && c ≤ 'F')

/-- Numeric value of a hexadecimal digit. -/
def hexDigitVal (c : Char) : Nat :=
  if c ≥ '0' && c ≤ '9' then c.toNat - 48
  else if c ≥ 'a' && c ≤ 'f' then c.toNat - 87
  else c.toNat - 55

/-- Value of a list of hexadecimal digits, most significant first. -/
def hexValNat (cs : List Char) : Nat :=
  cs.foldl (fun a c => a * 16 + hexDigitVal c) 0

/-- Digit loop of Python int(s, 16): consume hexadecimal digits, allowing a
single underscore between two digits (CPython digit grouping). -/
def hexDigitsLoop : Nat → List Char → Option Nat
  | acc, [] => some acc
  | acc, [c] => if isHexDig c then some (acc * 16 + hexDigitVal c) else none
  | acc, c :: c2 :: cs =>
    if isHexDig c then hexDigitsLoop (acc * 16 + hexDigitVal c) (c2 :: cs)
    else if c = '_' && isHexDig c2 then hexDigitsLoop (acc * 16 + hexDigitVal c2) cs
    else none

/-- Magnitude part of Python int(s, 16) after the optional sign: at least
one digit is required and it must not be an underscore. -/
def hexMagCore : List Char → Option Nat
  | c :: cs => if isHexDig c then hexDigitsLoop (hexDigitVal c) cs else none
  | [] => none

/-- True when the list starts with the Python base marker 0x or 0X. -/
def starts0x (cs : List Char) : Bool :=
  match cs with
  | c0 :: c1 :: _ => c0 = '0' && (c1 = 'x' || c1 = 'X')
  | _ => false

/-- Magnitude of Python int(s, 16) including the optional 0x or 0X base
marker, which may be followed by a single underscore. -/
def hexMag (cs : List Char) : Option Nat :=
  if starts0x cs then
    match cs with
    | _ :: _ :: r0 :: rest2 => if r0 = '_' then hexMagCore rest2 else hexMagCore (r0 :: rest2)
    | _ => hexMagCore []
  else hexMagCore cs

/-- Sign handling of Python int(s, 16), applied after stripping. -/
def pyIntHexCore : List Char → Option Int
  | c :: rest =>
    if c = '-' then (hexMag rest).map (fun n => -(n : Int))
    else if c = '+' then (hexMag rest).map (fun n => (n : Int))
    else (hexMag (c :: rest)).map (fun n => (n : Int))
  | [] => none

/-- Model of Python int(s, 16): surrounding whitespace is stripped, an
optional sign is accepted, and there is no upper bound on the value.  A
string that is not a valid hexadecimal numeral yields none (Python raises
ValueError there). -/
def pyIntHex (s : List Char) : Option Int :=
  pyIntHexCore (pyStrip s)

/-- Lowercase digit character for a value below 16. -/
def digitCh (d : Nat) : Char :=
  if d < 10 then Char.ofNat (48 + d) else Char.ofNat (87 + d)

/-- Digit-producing loop for formatting a natural number in a base; the
first argument is fuel, always called with at least the number itself. -/
def natDigitsLoop (b : Nat) : Nat → Nat → List Char → List Char
  | 0, _, acc => acc
  | fuel + 1, n, acc =>
    if n = 0 then acc else natDigitsLoop b fuel (n / b) (digitCh (n % b) :: acc)

/-- Digits of n in base b, most significant first, lowercase; 0 prints as
the single digit 0.  Models the digit sequence of Python format x and d. -/
def natToBase (b n : Nat) : List Char :=
  if n = 0 then ['0'] else natDigitsLoop b n n []

/-- Pad a digit list on the left with zeros up to width w. -/
def zeroPad (w : Nat) (ds : List Char) : List Char :=
  List.replicate (w - ds.length) '0' ++ ds

/-- Model of the Python format specifier {:0wx}: lowercase hexadecimal,
zero padded to at least w characters; for a negative number the sign comes
before the padding, as Python does. -/
def pyHexPad (w : Nat) (v : Int) : String :=
  if v < 0 then String.mk ('-' :: zeroPad (w - 1) (natToBase 16 v.natAbs))
  else String.mk (zeroPad w (natToBase 16 v.toNat))

/-- Model of Python str() on an integer: decimal, with a sign if negative. -/
def pyDec (v : Int) : String :=
  if v < 0 then String.mk ('-' :: natToBase 10 v.natAbs)
  else String.mk (natToBase 10 v.toNat)

/-- Model of the Python format specifier {:>w}: right align in width w,
padding with spaces on the left (no truncation if already longer). -/
def padLeftTo (w : Nat) (s : String) : String :=
  String.mk (List.replicate (w - s.length) ' ') ++ s

/-- The empty string, as passed for the name of an unknown register. -/
def blank : String := ""

/-- namedtuple DPCDData of parse_dpcd.py: one named bitfield. -/
structure DPCDData where
  name : String
  mask : Nat
  shift : Nat
  deriving DecidableEq

/-- namedtuple DPCDReg of parse_dpcd.py: a register name and an optional
list of bitfields (None in Python is modelled as none). -/
structure DPCDReg where
  name : String
  dpcd_data : Option (List DPCDData)
  deriving DecidableEq

/-- The DPCD_REGS dict literal of parse_dpcd.py, kept as the entry list in
source order. -/
def DPCD_REGS : List (Int × DPCDReg) := [
  (0x000, ⟨"DP_DPCD_REV", some [⟨"major", 0xf, 4⟩, ⟨"minor", 0xf, 0⟩]⟩),
  (0x001, ⟨"MAX_LINK_RATE", none⟩),
  (0x002, ⟨"MAX_LANE_COUNT", some [⟨"enhanced frame cap", 0x1, 7⟩,
          ⟨"TPS3 supported", 0x1, 6⟩, ⟨"max lanes", 0x1f, 0⟩]⟩),
  (0x003, ⟨"MAX_DOWNSPREAD", none⟩),
  (0x004, ⟨"NORP & DP_PWR_VOLTAGE_CAP", some [⟨"18v_dp_pwr_cap", 0x1, 7⟩,
          ⟨"12v_dp_pwr_cap", 0x1, 6⟩, ⟨"5v_dp_pwr_cap", 0x1, 5⟩,
          ⟨"#rx ports", 0xf, 0⟩]⟩),
  (0x005, ⟨"DOWNSTREAMPORT_PRESENT", some [⟨"dwn_strm_port_type", 0x2, 1⟩,
          ⟨"dwn_strm_port_present", 0x1, 0⟩]⟩),
  (0x006, ⟨"MAIN_LINK_CHANNEL_CODING", some [⟨"ansi 8b/10b", 0x1, 0⟩]⟩),
  (0x007, ⟨"MAIN_LINK_CHANNEL_CODING", some [⟨"OUI Support", 0x1, 7⟩,
          ⟨"msa_timing_par_ignored", 0x1, 6⟩,
          ⟨"dwn_strm_port_count", 0xf, 0⟩]⟩),
  (0x008, ⟨"RECEIVE_PORT0_CAP_0", some [⟨"associated_to_preceding_port", 0x1, 2⟩,
          ⟨"local_edid_present", 0x1, 1⟩]⟩),
  (0x009, ⟨"RECEIVE_PORT0_CAP_1", some [⟨"buffer_size", 0xff, 0⟩]⟩),
  (0x00a, ⟨"RECEIVE_PORT1_CAP_0", some [⟨"associated_to_preceding_port", 0x1, 2⟩,
          ⟨"local_edid_present", 0x1, 1⟩]⟩),
  (0x00b, ⟨"RECEIVE_PORT1_CAP_1", some [⟨"buffer_size", 0xff, 0⟩]⟩),
  (0x00c, ⟨"I2C_SPEED_CONTROL", none⟩),
  (0x00d, ⟨"eDP_CONFIGURATION_CAP", some [⟨"framing_change_capable", 0x1, 1⟩,
          ⟨"alternate_scrambler_reset_capable", 0x1, 0⟩]⟩),
  (0x00e, ⟨"TRAINING_AUX_RD_INTERVAL", none⟩),
  (0x100, ⟨"LINK_BW_SET", none⟩),
  (0x101, ⟨"LANE_COUNT_SET", some [⟨"enhanced_frame_cap", 0x1, 7⟩,
          ⟨"max_lane_count", 0xf, 0⟩]⟩),
  (0x102, ⟨"TRAINING_PATTERN_SET", some [⟨"scrambling_disable", 0x1, 5⟩,
          ⟨"recovered_clock_out_en", 0x1, 4⟩,
          ⟨"training_pattern_set", 0x3, 0⟩]⟩),
  (0x103, ⟨"TRAINING_LANE0_SET", some [⟨"max_pre-emphasis_reached", 0x1, 5⟩,
          ⟨"pre-emphasis_set", 0x3, 3⟩, ⟨"max_swing_reached", 0x1, 2⟩,
          ⟨"voltage swing set", 0x3, 0⟩]⟩),
  (0x104, ⟨"TRAINING_LANE1_SET", some [⟨"max_pre-emphasis_reached", 0x1, 5⟩,
          ⟨"pre-emphasis_set", 0x3, 3⟩, ⟨"max_swing_reached", 0x1, 2⟩,
          ⟨"voltage swing set", 0x3, 0⟩]⟩),
  (0x105, ⟨"TRAINING_LANE2_SET", some [⟨"max_pre-emphasis_reached", 0x1, 5⟩,
          ⟨"pre-emphasis_set", 0x3, 3⟩, ⟨"max_swing_reached", 0x1, 2⟩,
          ⟨"voltage swing set", 0x3, 0⟩]⟩),
  (0x106, ⟨"TRAINING_LANE3_SET", some [⟨"max_pre-emphasis_reached", 0x1, 5⟩,
          ⟨"pre-emphasis_set", 0x3, 3⟩, ⟨"max_swing_reached", 0x1, 2⟩,
          ⟨"voltage swing set", 0x3, 0⟩]⟩),
  (0x107, ⟨"DOWNSPREAD_CTRL", some [⟨"msa_timing_par_ignore_en", 0x1, 7⟩,
          ⟨"spread_amp", 0x1, 4⟩]⟩),
  (0x108, ⟨"MAIN_LINK_CHANNEL_CODING_SET", some [⟨"set_ansi 8b10b", 0x1, 0⟩]⟩),
  (0x109, ⟨"I2C speed control/status", none⟩),
  (0x10a, ⟨"eDP_CONFIGURATION_SET", some [⟨"panel_self_test_enable", 0x1, 7⟩,
          ⟨"framing_change_enable", 0x1, 1⟩,
          ⟨"alternate_scramber_reset_enable", 0x1, 0⟩]⟩),
  (0x200, ⟨"SINK_COUNT", some [⟨"cp_ready", 0x1, 6⟩,
          ⟨"sink_count", 0x3f, 0⟩]⟩),
  (0x201, ⟨"DEVICE_SERVICE_IRQ_VECTOR", some [⟨"sink_specific_irq", 0x1, 6⟩,
          ⟨"up_req_msg_rdy", 0x1, 5⟩, ⟨"down_rep_msg_rdy", 0x1, 4⟩,
          ⟨"mccs_irq", 0x1, 3⟩, ⟨"cp_irq", 0x1, 2⟩,
          ⟨"automated_test_request", 0x1, 1⟩]⟩),
  (0x202, ⟨"LANE0_1_STATUS", some [⟨"lane1_symbol_locked", 0x1, 6⟩,
          ⟨"lane1_channel_eq_done", 0x1, 5⟩, ⟨"lane1_cr_done", 0x1, 4⟩,
          ⟨"lane0_symbol_locked", 0x1, 2⟩, ⟨"lane0_channel_eq_done", 0x1, 1⟩,
          ⟨"lane0_cr_done", 0x1, 0⟩]⟩),
  (0x203, ⟨"LANE2_3_STATUS", some [⟨"lane3_symbol_locked", 0x1, 6⟩,
          ⟨"lane3_channel_eq_done", 0x1, 5⟩, ⟨"lane3_cr_done", 0x1, 4⟩,
          ⟨"lane2_symbol_locked", 0x1, 2⟩, ⟨"lane2_channel_eq_done", 0x1, 1⟩,
          ⟨"lane2_cr_done", 0x1, 0⟩]⟩),
  (0x204, ⟨"LANE_ALIGN__STATUS_UPDATED", some [⟨"link_status_updated", 0x1, 7⟩,
          ⟨"downstream_port_status_changed", 0x1, 6⟩,
          ⟨"interlane_align_done", 0x1, 0⟩]⟩),
  (0x205, ⟨"SINK_STATUS", some [⟨"receive_port_1_status", 0x1, 1⟩,
          ⟨"receive_port_0_status", 0x1, 0⟩]⟩),
  (0x206, ⟨"ADJUST_REQUEST_LANE0_1", some [⟨"pre-emphasis_lane1", 0x3, 6⟩,
          ⟨"voltage_swing_lane1", 0x3, 4⟩, ⟨"pre-emphasis_lane0", 0x3, 2⟩,
          ⟨"voltage_swing_lane0", 0x3, 0⟩]⟩),
  (0x207, ⟨"ADJUST_REQUEST_LANE2_3", some [⟨"pre-emphasis_lane3", 0x3, 6⟩,
          ⟨"voltage_swing_lane3", 0x3, 4⟩, ⟨"pre-emphasis_lane2", 0x3, 2⟩,
          ⟨"voltage_swing_lane2", 0x3, 0⟩]⟩)
]

/-- Lookup in a Python dict built from a literal entry list: a duplicated
key is silently accepted and the entry written last wins, so lookup scans
the reversed entry list for the first matching key. -/
def dictLookup (d : List (Int × DPCDReg)) (k : Int) : Option DPCDReg :=
  (d.reverse.find? (fun p => p.1 == k)).map (fun p => p.2)

/-- MAX_LEN_REG_NAME of parse_dpcd.py: the longest register name length. -/
def MAX_LEN_REG_NAME : Nat :=
  (DPCD_REGS.map (fun p => p.2.name.length)).foldl Nat.max 0

/-- reg_addr_str of parse_dpcd.py: the register name right aligned to the
longest name width, a space, and the address in 4-digit lowercase hex. -/
def reg_addr_str (name : String) (addr : Int) : String :=
  padLeftTo MAX_LEN_REG_NAME name ++ " " ++ pyHexPad 4 addr

/-- Bitfield extraction of parse_dpcd.py line 165: (val >> shift) & mask,
with Python arithmetic shift and two complement bitwise and. -/
def pyExtract (val : Int) (d : DPCDData) : Int :=
  Int.land (val >>> d.shift) (Int.ofNat d.mask)

/-- One entry of the data list built in print_reg: the field name, a colon
and space, and the extracted value in decimal. -/
def fmt_field (val : Int) (d : DPCDData) : String :=
  d.name ++ ": " ++ pyDec (pyExtract val d)

/-- Branch of print_reg of parse_dpcd.py for an address found in the dict:
the compact line, or the expanded header line followed by one continuation
line per remaining field.  The Python truthiness test show_data and
reg.dpcd_data is modelled by matching a nonempty field list. -/
def print_known (addr : Int) (val : Int) (show_data : Bool) (reg : DPCDReg) : List String :=
  match show_data, reg.dpcd_data with
  | true, some (d0 :: ds) =>
    (reg_addr_str reg.name addr ++ ": " ++ pyHexPad 2 val ++ ", " ++ fmt_field val d0)
      :: ds.map (fun d =>
           String.mk (List.replicate (MAX_LEN_REG_NAME + 10) ' ') ++ " " ++ fmt_field val d)
  | _, _ => [reg_addr_str reg.name addr ++ ": " ++ pyHexPad 2 val]

/-- print_reg of parse_dpcd.py, returning the list of printed lines: the
generic fallback line when the address is absent from the dict (the Python
KeyError path), otherwise the known-register rendering. -/
def print_reg (addr : Int) (val : Int) (show_data : Bool) : List String :=
  match dictLookup DPCD_REGS addr with
  | none => [reg_addr_str blank addr ++ ": " ++ pyHexPad 2 val]
  | some reg => print_known addr val show_data reg

/-- Error raised by a malformed line: Python ValueError, called FormatError
by the specification. -/
inductive FormatError where
  | valueError
  deriving DecidableEq

/-- Lines 182 to 184 of parse_dpcd.py: split the line on every colon, strip
each part, require exactly two parts (tuple unpacking raises ValueError
otherwise), parse the left part with int(s, 16), split the right part on
single spaces and parse every token with int(s, 16). -/
def parse_tokens (line : String) : Except FormatError (Int × List Int) :=
  match (pySplit ':' line.data).map pyStrip with
  | [addr_str, regs_str] =>
    match pyIntHex addr_str with
    | none => .error .valueError
    | some addr_base =>
      match (pySplit ' ' regs_str).mapM pyIntHex with
      | none => .error .valueError
      | some reg_vals => .ok (addr_base, reg_vals)
  | _ => .error .valueError

/-- Lines 186 to 187 of parse_dpcd.py: one print_reg call per parsed byte,
at address addr_base + i for the i-th byte (plain Int addition, no mask). -/
def decode_blocks (addr_base : Int) (reg_vals : List Int) (show_data : Bool) :
    List (List String) :=
  reg_vals.enum.map (fun iv => print_reg (addr_base + (iv.1 : Int)) iv.2 show_data)

/-- parse_dpcd_line of parse_dpcd.py: parse the line, then emit one block
of output lines per byte value. -/
def parse_dpcd_line (line : String) (show_data : Bool) :
    Except FormatError (List (List String)) :=
  (parse_tokens line).map (fun p => decode_blocks p.1 p.2 show_data)

/-- Number of bits needed to write n in binary; 0 for 0.  This is the
bit-width of a mask in the sense of the specification. -/
def bitWidthLoop : Nat → Nat → Nat
  | 0, _ => 0
  | fuel + 1, n => if n = 0 then 0 else bitWidthLoop fuel (n / 2) + 1

/-- Bit-width of a natural number. -/
def bitWidth (n : Nat) : Nat := bitWidthLoop n n

/-- All bitfields appearing anywhere in the catalog. -/
def allCatalogFields : List DPCDData :=
  (DPCD_REGS.map (fun p => p.2.dpcd_data.getD [])).flatten

/-- Well-formedness of one register descriptor: nonempty name and every
field fits in a byte. -/
def regWF (r : DPCDReg) : Bool :=
  (!(r.name == "")) &&
    (match r.dpcd_data with
     | none => true
     | some fs => fs.all (fun f => f.shift + bitWidth f.mask ≤ 8))

/-- Join a token list with a single separator character between tokens. -/
def joinSep (sep : Char) : List (List Char) → List Char
  | [] => []
  | [t] => t
  | t :: t2 :: r => t ++ sep :: joinSep sep (t2 :: r)

/-- The 15-byte example line of the specification end-to-end test. -/
def line15 : String := "0000: 11 0a 84 01 01 00 01 80 02 00 00 00 00 00 00"

/-! Helper lemmas about the embedded string primitives. -/

theorem str_mk_length (l : List Char) : (String.mk l).length = l.length := rfl

theorem pySplit_no_sep (sep : Char) :
    ∀ t : List Char, (∀ c ∈ t, c ≠ sep) → pySplit sep t = [t] := by
  intro t
  induction t with
  | nil => intro _; rfl
  | cons c cs ih =>
    intro h
    have hc : c ≠ sep := h c (List.mem_cons_self c cs)
    have hcs := ih (fun x hx => h x (List.mem_cons_of_mem c hx))
    simp [pySplit, hc, hcs]

theorem pySplit_sep_append (sep : Char) :
    ∀ (t r : List Char), (∀ c ∈ t, c ≠ sep) →
      pySplit sep (t ++ sep :: r) = t :: pySplit sep r := by
  intro t
  induction t with
  | nil => intro r _; simp [pySplit]
  | cons c cs ih =>
    intro r h
    have hc : c ≠ sep := h c (List.mem_cons_self c cs)
    have hcs := ih r (fun x hx => h x (List.mem_cons_of_mem c hx))
    simp [pySplit, hc, hcs]

theorem pySplit_joinSep (sep : Char) :
    ∀ toks : List (List Char), toks ≠ [] →
      (∀ t ∈ toks, ∀ c ∈ t, c ≠ sep) →
      pySplit sep (joinSep sep toks) = toks := by
  intro toks
  induction toks with
  | nil => intro h; exact absurd rfl h
  | cons t rest ih =>
    intro _ h
    match rest with
    | [] =>
      simp only [joinSep]
      exact pySplit_no_sep sep t (h t (List.mem_cons_self t []))
    | t2 :: r =>
      simp only [joinSep]
      rw [pySplit_sep_append sep t (joinSep sep (t2 :: r))
            (h t (List.mem_cons_self t (t2 :: r)))]
      rw [ih (by simp) (fun u hu => h u (List.mem_cons_of_mem t hu))]

theorem isHexDig_ne_white {c : Char} (h : isHexDig c = true) : isPyWhite c = false := by
  cases hb : isPyWhite c
  · rfl
  · exfalso
    simp only [isPyWhite, Bool.or_eq_true, beq_iff_eq] at hb
    rcases hb with ((((rfl | rfl) | rfl) | rfl) | rfl) | rfl <;> exact absurd h (by decide)

theorem dropWhile_eq_self_of_none {p : Char → Bool} :
    ∀ l : List Char, (∀ c ∈ l, p c = false) → l.dropWhile p = l := by
  intro l h
  cases l with
  | nil => rfl
  | cons c cs =>
    have : p c = false := h c (List.mem_cons_self c cs)
    simp [List.dropWhile, this]

theorem pyStrip_of_no_white (t : List Char) (h : ∀ c ∈ t, isPyWhite c = false) :
    pyStrip t = t := by
  unfold pyStrip
  rw [dropWhile_eq_self_of_none t h]
  rw [dropWhile_eq_self_of_none t.reverse (fun c hc => h c (List.mem_reverse.mp hc))]
  exact List.reverse_reverse t

theorem hexDigitsLoop_all_hex :
    ∀ (cs : List Char) (acc : Nat), (∀ c ∈ cs, isHexDig c = true) →
      hexDigitsLoop acc cs = some (cs.foldl (fun a c => a * 16 + hexDigitVal c) acc) := by
  intro cs
  induction cs with
  | nil => intro acc _; rfl
  | cons c cs2 ih =>
    intro acc h
    have hc : isHexDig c = true := h c (List.mem_cons_self c cs2)
    cases cs2 with
    | nil => simp [hexDigitsLoop, hc]
    | cons c2 cs3 =>
      simp only [hexDigitsLoop, hc, if_true, List.foldl_cons]
      exact ih (acc * 16 + hexDigitVal c) (fun x hx => h x (List.mem_cons_of_mem c hx))

theorem starts0x_of_all_hex (c : Char) (rest : List Char)
    (h : ∀ x ∈ c :: rest, isHexDig x = true) : starts0x (c :: rest) = false := by
  cases rest with
  | nil => rfl
  | cons c1 rest2 =>
    have hc1 : isHexDig c1 = true := h c1 (by simp)
    have hx : c1 ≠ 'x' := by intro hcc; rw [hcc] at hc1; exact absurd hc1 (by decide)
    have hX : c1 ≠ 'X' := by intro hcc; rw [hcc] at hc1; exact absurd hc1 (by decide)
    simp [starts0x, hx, hX]

theorem pyIntHex_all_hex (t : List Char) (hne : t ≠ [])
    (h : ∀ c ∈ t, isHexDig c = true) :
    pyIntHex t = some (Int.ofNat (hexValNat t)) := by
  have hstrip : pyStrip t = t :=
    pyStrip_of_no_white t (fun c hc => isHexDig_ne_white (h c hc))
  cases t with
  | nil => exact absurd rfl hne
  | cons c rest =>
    have hc : isHexDig c = true := h c (List.mem_cons_self c rest)
    have hcm : c ≠ '-' := by intro hcc; rw [hcc] at hc; exact absurd hc (by decide)
    have hcp : c ≠ '+' := by intro hcc; rw [hcc] at hc; exact absurd hc (by decide)
    have hcore : hexMagCore (c :: rest) = some (hexValNat (c :: rest)) := by
      simp only [hexMagCore, hc, if_true]
      rw [hexDigitsLoop_all_hex rest (hexDigitVal c)
            (fun x hx => h x (List.mem_cons_of_mem c hx))]
      simp [hexValNat]
    have hmag : hexMag (c :: rest) = some (hexValNat (c :: rest)) := by
      unfold hexMag
      rw [if_neg (by rw [starts0x_of_all_hex c rest h]; exact Bool.false_ne_true)]
      exact hcore
    unfold pyIntHex
    rw [hstrip]
    simp only [pyIntHexCore]
    rw [if_neg hcm, if_neg hcp, hmag]
    rfl

theorem mapM_pyIntHex_of_all {toks : List (List Char)} {f : List Char → Int}
    (h : ∀ t ∈ toks, pyIntHex t = some (f t)) :
    toks.mapM pyIntHex = some (toks.map f) := by
  induction toks with
  | nil => rfl
  | cons t rest ih =>
    rw [List.mapM_cons, h t (List.mem_cons_self t rest),
        ih (fun u hu => h u (List.mem_cons_of_mem t hu))]
    rfl

theorem natDigitsLoop_length_le (b : Nat) (hb : 1 < b) :
    ∀ (fuel n : Nat) (acc : List Char) (k : Nat), n < b ^ k →
      (natDigitsLoop b fuel n acc).length ≤ k + acc.length := by
  intro fuel
  induction fuel with
  | zero => intro n acc k _; simp [natDigitsLoop]
  | succ fu ih =>
    intro n acc k hk
    by_cases hn : n = 0
    · simp [natDigitsLoop, hn]
    · simp only [natDigitsLoop]
      rw [if_neg hn]
      cases k with
      | zero =>
        rw [Nat.pow_zero] at hk
        omega
      | succ k2 =>
        have hdiv : n / b < b ^ k2 := by
          rw [Nat.div_lt_iff_lt_mul (by omega : 0 < b)]
          calc n < b ^ (k2 + 1) := hk
            _ = b ^ k2 * b := by rw [Nat.pow_succ]
        have h2 := ih (n / b) (digitCh (n % b) :: acc) k2 hdiv
        simp only [List.length_cons] at h2
        omega

theorem natToBase_length_le (b : Nat) (hb : 1 < b) (n k : Nat) (hk : 1 ≤ k)
    (h : n < b ^ k) : (natToBase b n).length ≤ k := by
  unfold natToBase
  by_cases hn : n = 0
  · simp [hn]; omega
  · simp only [hn, if_false]
    have := natDigitsLoop_length_le b hb n n [] k h
    simpa using this

theorem zeroPad_length (w : Nat) (ds : List Char) (h : ds.length ≤ w) :
    (zeroPad w ds).length = w := by
  simp [zeroPad]
  omega

theorem pyHexPad_length (w : Nat) (v : Int) (h0 : 0 ≤ v)
    (hn : v.toNat < 16 ^ w) (hw : 1 ≤ w) : (pyHexPad w v).length = w := by
  unfold pyHexPad
  rw [if_neg (by omega)]
  show (zeroPad w (natToBase 16 v.toNat)).length = w
  exact zeroPad_length w _ (natToBase_length_le 16 (by omega) v.toNat w hw hn)

theorem dictLookup_mem {d : List (Int × DPCDReg)} {k : Int} {v : DPCDReg}
    (h : dictLookup d k = some v) : ∃ p, p ∈ d ∧ p.1 = k ∧ p.2 = v := by
  unfold dictLookup at h
  rw [Option.map_eq_some'] at h
  obtain ⟨p, hp, hpv⟩ := h
  refine ⟨p, ?_, ?_, hpv⟩
  · exact List.mem_reverse.mp (List.mem_of_find?_eq_some hp)
  · have := List.find?_some hp
    simpa using this

theorem catalog_regWF_all : DPCD_REGS.all (fun p => regWF p.2) = true := by decide

theorem catalog_names_le :
    DPCD_REGS.all (fun p => decide (p.2.name.length ≤ MAX_LEN_REG_NAME)) = true := by decide

theorem pyExtract_ofNat (v : Nat) (d : DPCDData) :
    pyExtract (Int.ofNat v) d = Int.ofNat (Nat.land (v >>> d.shift) d.mask) := rfl

/-! Claim theorems. -/

/-- C1 counterexample: the byte token 1ff parses to 511, a value outside
the range 0 to 255, yet ParseLine accepts the line and the pipeline
renders the widened value instead of failing. -/
theorem C1_out_of_range_cex :
    parse_tokens ("0000: 1ff") = .ok (0, [511]) ∧
    (255 : Int) < 511 ∧
    parse_dpcd_line ("0000: 1ff") false =
      .ok [["                 DP_DPCD_REV 0000: 1ff"]] :=
  ⟨rfl, by decide, rfl⟩

/-- C1 (amended): every byte token is parsed as a base-16 unsigned integer
and a non-hexadecimal token raises a FormatError, but no range check is
performed: any value expressible in hexadecimal digits is accepted, values
above 255 included, and is rendered with a widened hexadecimal field. -/
theorem C1_no_range_check :
    (∀ t : List Char, t ≠ [] → (∀ c ∈ t, isHexDig c = true) →
        pyIntHex t = some (Int.ofNat (hexValNat t))) ∧
    parse_tokens ("0000: 1gg") = .error .valueError ∧
    parse_tokens ("0000: 1ff") = .ok (0, [511]) ∧
    parse_dpcd_line ("0000: 1ff") false =
      .ok [["                 DP_DPCD_REV 0000: 1ff"]] :=
  ⟨fun t hne h => pyIntHex_all_hex t hne h, rfl, rfl, rfl⟩

/-- C1 witness: the general conjunct applied to the out-of-range token. -/
theorem C1_no_range_check_witness :
    pyIntHex ['1', 'f', 'f'] = some (Int.ofNat 511) := by
  rw [C1_no_range_check.1 ['1', 'f', 'f'] (by decide) (by decide)]
  rfl

/-- C2 counterexample: tokens separated by a run of two spaces make the
parse fail with a FormatError, where the single-space form of the same
line succeeds, so arbitrary whitespace between bytes is not accepted. -/
theorem C2_whitespace_cex :
    parse_tokens ("0000: 11 0a") = .ok (0, [17, 10]) ∧
    parse_tokens ("0000: 11  0a") = .error .valueError :=
  ⟨rfl, rfl⟩

/-- C2 (amended): the segment after the colon is split on single space
characters, not on general whitespace: any nonempty sequence of tokens of
hexadecimal digits joined by exactly one space parses to exactly those
values, while a run of two spaces produces an empty token and a tab joins
two tokens, both failing with a FormatError. -/
theorem C2_single_space :
    (∀ toks : List (List Char), toks ≠ [] →
        (∀ t ∈ toks, t ≠ [] ∧ ∀ c ∈ t, isHexDig c = true) →
        (pySplit ' ' (joinSep ' ' toks)).mapM pyIntHex =
          some (toks.map (fun t => Int.ofNat (hexValNat t)))) ∧
    parse_tokens ("0000: 11  0a") = .error .valueError ∧
    parse_tokens ("0000: 11\t0a") = .error .valueError := by
  refine ⟨?_, rfl, rfl⟩
  intro toks hne h
  have hsep : ∀ t ∈ toks, ∀ c ∈ t, c ≠ ' ' := by
    intro t ht c hc hcsp
    have hhex := (h t ht).2 c hc
    rw [hcsp] at hhex
    exact absurd hhex (by decide)
  rw [pySplit_joinSep ' ' toks hne hsep]
  exact mapM_pyIntHex_of_all (fun t ht => pyIntHex_all_hex t (h t ht).1 (h t ht).2)

/-- C2 witness: the general conjunct applied to the two tokens 11 and 0a. -/
theorem C2_single_space_witness :
    (pySplit ' ' (joinSep ' ' [['1', '1'], ['0', 'a']])).mapM pyIntHex =
      some [Int.ofNat 17, Int.ofNat 10] := by
  rw [C2_single_space.1 [['1', '1'], ['0', 'a']] (by decide) (by decide)]
  rfl

/-- C3 counterexample: the catalog is built by Python dict literal
semantics, which cannot fail: an entry list with a duplicated address is
accepted silently and the later entry wins the lookup. -/
theorem C3_duplicate_cex :
    ¬ (([((0 : Int), (⟨"first", none⟩ : DPCDReg)),
         (0, ⟨"second", none⟩)].map Prod.fst).Nodup) ∧
    dictLookup [((0 : Int), (⟨"first", none⟩ : DPCDReg)),
         (0, ⟨"second", none⟩)] 0 = some ⟨"second", none⟩ := by
  decide

/-- C3 (amended): construction of the catalog never fails and would
silently keep only the later of two entries sharing an address; the actual
static entry list contains no duplicate addresses, so no entry is lost. -/
theorem C3_nodup : (DPCD_REGS.map Prod.fst).Nodup := by decide

/-- C4: one output block per byte in input order, the i-th byte rendered
at address base + i by plain integer addition with no masking (the address
past 16 bits simply widens, as the last conjunct shows at 0x10000), and
the 15-byte example line yields exactly 15 one-line compact blocks for
addresses 0x0000 through 0x000e. -/
theorem C4_per_byte :
    (∀ (a : Int) (vs : List Int) (sd : Bool),
        (decode_blocks a vs sd).length = vs.length) ∧
    (∀ (a : Int) (vs : List Int) (sd : Bool) (i : Nat),
        (decode_blocks a vs sd)[i]? =
          vs[i]?.map (fun v => print_reg (a + (i : Int)) v sd)) ∧
    parse_dpcd_line line15 false = .ok
      [ ["                 DP_DPCD_REV 0000: 11"],
        ["               MAX_LINK_RATE 0001: 0a"],
        ["              MAX_LANE_COUNT 0002: 84"],
        ["              MAX_DOWNSPREAD 0003: 01"],
        ["   NORP & DP_PWR_VOLTAGE_CAP 0004: 01"],
        ["      DOWNSTREAMPORT_PRESENT 0005: 00"],
        ["    MAIN_LINK_CHANNEL_CODING 0006: 01"],
        ["    MAIN_LINK_CHANNEL_CODING 0007: 80"],
        ["         RECEIVE_PORT0_CAP_0 0008: 02"],
        ["         RECEIVE_PORT0_CAP_1 0009: 00"],
        ["         RECEIVE_PORT1_CAP_0 000a: 00"],
        ["         RECEIVE_PORT1_CAP_1 000b: 00"],
        ["           I2C_SPEED_CONTROL 000c: 00"],
        ["       eDP_CONFIGURATION_CAP 000d: 00"],
        ["    TRAINING_AUX_RD_INTERVAL 000e: 00"] ] ∧
    print_reg 65536 0 false = ["                             10000: 00"] := by
  refine ⟨?_, ?_, rfl, rfl⟩
  · intro a vs sd
    simp [decode_blocks]
  · intro a vs sd i
    simp only [decode_blocks, List.getElem?_map, List.getElem?_enum, Option.map_map]
    rfl

/-- C5: decoding address 0x002 with raw value 0x81 in field-expanded mode
renders the three fields in declared order with decimal extracted values:
enhanced frame cap 1, TPS3 supported 0, max lanes 1. -/
theorem C5_expand_0x002 :
    print_reg 2 129 true =
      [ "              MAX_LANE_COUNT 0002: 81, enhanced frame cap: 1",
        "                                       TPS3 supported: 0",
        "                                       max lanes: 1" ] := rfl

/-- C7: a line without a colon, a non-hexadecimal address, and a
non-hexadecimal byte token each raise a FormatError, the failing line
produces no output block, and the pure decoder still decodes a subsequent
well-formed line. -/
theorem C7_format_errors :
    parse_tokens ("0000 11") = .error .valueError ∧
    parse_tokens ("00xy: 11") = .error .valueError ∧
    parse_tokens ("0000: 11 1gg") = .error .valueError ∧
    parse_dpcd_line ("00xy: 11") false = .error .valueError ∧
    parse_dpcd_line ("0000: 11 0a") false = .ok
      [ ["                 DP_DPCD_REV 0000: 11"],
        ["               MAX_LINK_RATE 0001: 0a"] ] :=
  ⟨rfl, rfl, rfl, rfl, rfl⟩

/-- C6: a well-formed pair whose address is absent from the catalog is
always rendered and never an error: a blank space-padded name, a space,
the 4-digit lowercase hex address, a colon, a space, and the 2-digit
lowercase hex raw value. -/
theorem C6_unknown_addr (addr val : Int) (sd : Bool)
    (h : dictLookup DPCD_REGS addr = none)
    (ha0 : 0 ≤ addr) (ha : addr < 65536) (hv0 : 0 ≤ val) (hv : val < 256) :
    print_reg addr val sd =
      [String.mk (List.replicate MAX_LEN_REG_NAME ' ') ++ " " ++
        pyHexPad 4 addr ++ ": " ++ pyHexPad 2 val] ∧
    (pyHexPad 4 addr).length = 4 ∧ (pyHexPad 2 val).length = 2 := by
  refine ⟨?_, ?_, ?_⟩
  · unfold print_reg
    rw [h]
    rfl
  · refine pyHexPad_length 4 addr ha0 ?_ (by omega)
    have h16 : (16 : Nat) ^ 4 = 65536 := by norm_num
    rw [h16]
    omega
  · refine pyHexPad_length 2 val hv0 ?_ (by omega)
    have h16 : (16 : Nat) ^ 2 = 256 := by norm_num
    rw [h16]
    omega

/-- C6 witness: the unknown address 0x0fff with value 0x7b renders with a
blank name and value 7b. -/
theorem C6_unknown_addr_witness :
    print_reg 4095 123 false = ["                             0fff: 7b"] := by
  rw [(C6_unknown_addr 4095 123 false (by rfl) (by decide) (by decide)
        (by decide) (by decide)).1]
  rfl

/-- C8: every descriptor reachable by catalog lookup has a nonempty name,
and each of its fields satisfies shift + bit-width(mask) ≤ 8. -/
theorem C8_catalog_wf (addr : Int) (reg : DPCDReg)
    (h : dictLookup DPCD_REGS addr = some reg) :
    reg.name ≠ "" ∧
    ∀ fs, reg.dpcd_data = some fs → ∀ f ∈ fs, f.shift + bitWidth f.mask ≤ 8 := by
  obtain ⟨p, hpmem, _, hpv⟩ := dictLookup_mem h
  have hall := catalog_regWF_all
  rw [List.all_eq_true] at hall
  have hwf : regWF reg = true := by rw [← hpv]; exact hall p hpmem
  rw [regWF, Bool.and_eq_true] at hwf
  obtain ⟨hname, hfields⟩ := hwf
  constructor
  · intro hemp
    rw [hemp] at hname
    exact absurd hname (by decide)
  · intro fs hfs f hf
    rw [hfs] at hfields
    have hfields2 : fs.all (fun f => decide (f.shift + bitWidth f.mask ≤ 8)) = true := hfields
    rw [List.all_eq_true] at hfields2
    exact of_decide_eq_true (hfields2 f hf)

/-- C8 witness: the descriptor found at address 0x002. -/
theorem C8_catalog_wf_witness :
    ((⟨"MAX_LANE_COUNT", some [⟨"enhanced frame cap", 1, 7⟩,
        ⟨"TPS3 supported", 1, 6⟩, ⟨"max lanes", 31, 0⟩]⟩ : DPCDReg)).name ≠ "" :=
  (C8_catalog_wf 2 _ (by rfl)).1

/-- C9: for every byte value 0 to 255 and every field of the catalog, the
extracted value (v >> shift) & mask lies in the range 0 to mask. -/
theorem C9_extract_range (v : Nat) (_hv : v ≤ 255) (d : DPCDData)
    (_hd : d ∈ allCatalogFields) :
    0 ≤ pyExtract (Int.ofNat v) d ∧ pyExtract (Int.ofNat v) d ≤ Int.ofNat d.mask := by
  rw [pyExtract_ofNat]
  constructor
  · exact Int.ofNat_nonneg _
  · exact Int.ofNat_le.mpr Nat.and_le_right

/-- C9 witness: byte 0x81 and the enhanced frame cap field. -/
theorem C9_extract_range_witness :
    0 ≤ pyExtract (Int.ofNat 129) ⟨"enhanced frame cap", 1, 7⟩ ∧
    pyExtract (Int.ofNat 129) ⟨"enhanced frame cap", 1, 7⟩ ≤ Int.ofNat 1 :=
  C9_extract_range 129 (by decide) ⟨"enhanced frame cap", 1, 7⟩ (by decide)

/-- C10: in expanded mode each continuation line is exactly
MAX_LEN_REG_NAME + 10 spaces, one further space, then the field text, so
the field text starts at column MAX_LEN_REG_NAME + 11; the header text
before its first field has that same length, so the first field on the
header line begins at the same column, and the fixed extra indent is 10. -/
theorem C10_continuation (addr val : Int) (reg : DPCDReg) (f0 : DPCDData)
    (rest : List DPCDData)
    (h1 : dictLookup DPCD_REGS addr = some reg)
    (h2 : reg.dpcd_data = some (f0 :: rest))
    (ha0 : 0 ≤ addr) (ha : addr < 65536) (hv0 : 0 ≤ val) (hv : val < 256) :
    print_reg addr val true =
      (reg_addr_str reg.name addr ++ ": " ++ pyHexPad 2 val ++ ", " ++ fmt_field val f0)
        :: rest.map (fun d =>
             String.mk (List.replicate (MAX_LEN_REG_NAME + 10) ' ') ++ " " ++ fmt_field val d) ∧
    (reg_addr_str reg.name addr ++ ": " ++ pyHexPad 2 val ++ ", ").length =
      MAX_LEN_REG_NAME + 11 ∧
    (String.mk (List.replicate (MAX_LEN_REG_NAME + 10) ' ') ++ " ").length =
      MAX_LEN_REG_NAME + 11 := by
  have e2 : (pyHexPad 2 val).length = 2 := by
    refine pyHexPad_length 2 val hv0 ?_ (by omega)
    have h16 : (16 : Nat) ^ 2 = 256 := by norm_num
    rw [h16]
    omega
  have e4 : (pyHexPad 4 addr).length = 4 := by
    refine pyHexPad_length 4 addr ha0 ?_ (by omega)
    have h16 : (16 : Nat) ^ 4 = 65536 := by norm_num
    rw [h16]
    omega
  have ename : reg.name.length ≤ MAX_LEN_REG_NAME := by
    obtain ⟨p, hpmem, _, hpv⟩ := dictLookup_mem h1
    have hall := catalog_names_le
    rw [List.all_eq_true] at hall
    have := hall p hpmem
    rw [hpv] at this
    exact of_decide_eq_true this
  refine ⟨?_, ?_, ?_⟩
  · unfold print_reg
    rw [h1]
    show print_known addr val true reg = _
    unfold print_known
    rw [h2]
  · rw [String.length_append, String.length_append, String.length_append,
        reg_addr_str, String.length_append, String.length_append,
        padLeftTo, String.length_append, str_mk_length, List.length_replicate, e2, e4]
    have hc2 : (": ").length = 2 := rfl
    have hc2b : (", ").length = 2 := rfl
    have hc1 : (" ").length = 1 := rfl
    rw [hc2, hc2b, hc1]
    omega
  · rfl

/-- C10 witness: the DP_DPCD_REV register at address 0 with value 0x11. -/
theorem C10_continuation_witness :
    print_reg 0 17 true =
      [ "                 DP_DPCD_REV 0000: 11, major: 1",
        "                                       minor: 1" ] := by
  rw [(C10_continuation 0 17 ⟨"DP_DPCD_REV", some [⟨"major", 15, 4⟩, ⟨"minor", 15, 0⟩]⟩
        ⟨"major", 15, 4⟩ [⟨"minor", 15, 0⟩] (by rfl) (by rfl) (by decide) (by decide)
        (by decide) (by decide)).1]
  rfl

end ParseDpcd
